import Mathlib

/-!
Verification development for `ion_functions/data/generic_functions.py`.

Python floats that may be NaN are embedded as `F` (a rational number or
NaN); exact rational arithmetic stands in for IEEE doubles, which is
faithful for the sign, control-flow and exact-value properties proved
here.  Python exceptions are embedded as `Except`, and a function that
can raise returns `Except PyError _`.  The external geomagnetic model
(`ion_functions.data.wmm.WMM`, outside the sources) is passed in as a
function argument, following the spec's treatment of it as an opaque
collaborator.
-/

namespace GenericFunctions

/-- Embedding of a Python float value that may be NaN. -/
inductive F where
  | nan : F
  | fin : ℚ → F
deriving DecidableEq, Repr

/-- Python float subtraction: NaN propagates through arithmetic. -/
def F.sub : F → F → F
  | F.fin a, F.fin b => F.fin (a - b)
  | _, _ => F.nan

/-- Python float division; NaN propagates.  Only used with the nonzero
divisor 1000 (the m -> km conversion), so the rational `/` is faithful. -/
def F.div : F → F → F
  | F.fin a, F.fin b => F.fin (a / b)
  | _, _ => F.nan

/-- Python float multiplication: NaN propagates. -/
def F.mul : F → F → F
  | F.fin a, F.fin b => F.fin (a * b)
  | _, _ => F.nan

/-- Python `>` on floats: every comparison with NaN is False. -/
def F.gt : F → F → Bool
  | F.fin a, F.fin b => decide (b < a)
  | _, _ => false

/-- Whether the value is NaN. -/
def F.isNan : F → Bool
  | F.nan => true
  | F.fin _ => false

/-- Exceptions raised by the embedded functions. -/
inductive PyError where
  | invalidTimestamp : PyError
  | indexOutOfRange : PyError
deriving DecidableEq, Repr

/-- Embedding of the Python condition on lines 222 and 301,
`z > 0 & zflag == -1`.  In Python, `&` binds tighter than comparisons and
the two comparisons form a chain, so the expression parses as
`(z > (0 & zflag)) and ((0 & zflag) == -1)`. -/
def depthFlagCond (z : F) (zflag : ℤ) : Bool :=
  F.gt z (F.fin ((Int.land 0 zflag : ℤ) : ℚ)) && decide (Int.land 0 zflag = -1)

/-- Embedding of lines 300-302 (identical to 221-223): convert metres to
kilometres, then conditionally multiply by `zflag` (source: `z = zflag * z`). -/
def depth_to_km (z : F) (zflag : ℤ) : F :=
  let zkm := F.div z (F.fin 1000)
  if depthFlagCond zkm zflag then F.mul (F.fin (zflag : ℚ)) zkm else zkm

/-- DepthNormalizer following the spec's words (section 4.2): flip the sign
exactly when the magnitude is positive AND the orientation flag is
BELOW_SEA_LEVEL (the stated logical conjunction). -/
def to_model_depth_km_spec (z : F) (zflag : ℤ) : F :=
  let zkm := F.div z (F.fin 1000)
  if F.gt zkm (F.fin 0) && decide (zflag = -1) then F.mul (F.fin (zflag : ℚ)) zkm
  else zkm

/-- The NTP-to-Unix epoch offset subtracted on lines 212 and 295. -/
def NTP_OFFSET : ℚ := 2208988800

/-- Modelled from the spec: the calendar date produced by Python's
`datetime.datetime.utcfromtimestamp(t).date()` is represented by its day
number (UTC, truncated to day, per spec section 4.1); a day number is in
bijection with a calendar date, which is all the geomagnetic model
consumes. -/
def utcDate (t : ℚ) : ℤ := ⌊t / 86400⌋

/-- Modelled from the spec: section 4.1 has the time normalization fail
with `InvalidTimestamp` on non-finite input (Python's
`datetime.datetime.utcfromtimestamp` raises on NaN), and otherwise take
the calendar date of the given Unix time. -/
def to_calendar_date (t : F) : Except PyError ℤ :=
  match t with
  | F.nan => Except.error PyError.invalidTimestamp
  | F.fin q => Except.ok (utcDate q)

/-- Embedding of `wmm_declination_remod` (lines 294-307).  The external
geomagnetic model (`wmm.declination`, outside the sources) is the function
argument `decl`, following the spec's opaque-collaborator treatment. -/
def wmm_declination_remod (decl : F → F → F → ℤ → F)
    (lat lon ntp_timestamp z : F) (zflag : ℤ) : Except PyError F :=
  match to_calendar_date (F.sub ntp_timestamp (F.fin NTP_OFFSET)) with
  | Except.error e => Except.error e
  | Except.ok dates => Except.ok (decl lat lon (depth_to_km z zflag) dates)

/-- Embedding of the batched wrapper `magnetic_declination` (lines 64-70):
`np.vectorize` applies `wmm_declination_remod` element by element over the
index-aligned input arrays; an exception raised at any element aborts the
whole call. -/
def magnetic_declination (decl : F → F → F → ℤ → F)
    (lat lon ntp_timestamp z : List F) (zflag : ℤ) : Except PyError (List F) :=
  match lat, lon, ntp_timestamp, z with
  | la :: lat', lo :: lon', t :: ts', zz :: z' =>
    match wmm_declination_remod decl la lo t zz zflag with
    | Except.error e => Except.error e
    | Except.ok d =>
      match magnetic_declination decl lat' lon' ts' z' zflag with
      | Except.error e => Except.error e
      | Except.ok ds => Except.ok (d :: ds)
  | _, _, _, _ => Except.ok []

/-- Modelled from the spec: a concrete stand-in for the external
`WMM.declination` collaborator (sections 1 and 7): its spherical-harmonic
value is out of scope, but NaN in any numeric argument propagates to a NaN
result. -/
def declModel (lat lon z : F) (_dates : ℤ) : F :=
  if lat.isNan || lon.isNan || z.isNan then F.nan else F.fin 0

/-- The error pkg_resources raises when a resource cannot be resolved. -/
inductive ResolutionError where
  | notFound : ResolutionError
deriving DecidableEq, Repr

/-- The coefficient file name built on line 141 (`'WMM%4d.COF' % year`;
`%4d` pads to four digits, the identity for the four-digit years used). -/
def cof_file (year : ℤ) : String := "WMM" ++ toString year ++ ".COF"

/-- Errors that can escape `set_wmm_model`: the TypeError raised by line
147's malformed diagnostic, and the typed model-not-found failure the spec
requires (which the code never raises). -/
inductive WmmModelError where
  | typeError : WmmModelError
  | modelNotFound : WmmModelError
deriving DecidableEq, Repr

/-- Number of conversion specifiers in line 147's format string: one `%s`
and one `%4d`. -/
def fmtSpecifiers : ℕ := 2

/-- Python `%` formatting of a format string with `n` conversion
specifiers applied to a single non-tuple argument (here the caught
exception object `e`): exactly one value is supplied, so the operation
raises TypeError ("not enough arguments for format string") unless
`n = 1`. -/
def pyFormatSingle (n : ℕ) : Except WmmModelError Unit :=
  if n = 1 then Except.ok () else Except.error WmmModelError.typeError

/-- Embedding of `set_wmm_model` (lines 135-149).  The resource lookup
collaborator (`pkg_resources.resource_filename`) is the argument
`resource_filename`.  On a `ResolutionError` the `except` branch executes
line 147's print; its `%` formatting applies two specifiers to the single
exception object and so raises a TypeError that propagates out of the
handler.  Had the print succeeded, the branch would fall off the end of
the function and the caller would receive `None` (`Except.ok none`); the
`else` branch returns the resolved path. -/
def set_wmm_model (resource_filename : String → Except ResolutionError String)
    (year : ℤ) : Except WmmModelError (Option String) :=
  match resource_filename (cof_file year) with
  | Except.error _ =>
    match pyFormatSingle fmtSpecifiers with
    | Except.error e => Except.error e
    | Except.ok _ => Except.ok none
  | Except.ok wmm_model => Except.ok (some wmm_model)

/-- A resource lookup under which only the 2010 coefficient file exists
(the single epoch shipped with the package). -/
def resolver2010 : String → Except ResolutionError String := fun name =>
  if name = "WMM2010.COF" then Except.ok name
  else Except.error ResolutionError.notFound

/-- Result of a numpy float64 division that may hit a zero divisor. -/
inductive PyFloat where
  | num : ℚ → PyFloat
  | nan : PyFloat
  | inf : PyFloat
  | ninf : PyFloat
deriving DecidableEq, Repr

/-- Division as numpy float64 performs it: a zero divisor yields NaN for a
zero numerator and a signed infinity otherwise (a warning, not an
exception). -/
def npDiv (a b : ℚ) : PyFloat :=
  if b = 0 then
    if a = 0 then PyFloat.nan else if a > 0 then PyFloat.inf else PyFloat.ninf
  else PyFloat.num (a / b)

/-- Errors raised by `bilinear_interpolation`. -/
inductive BilinearError where
  | notARectangle : BilinearError
  | pointOutsideRectangle : BilinearError
  | notFourPoints : BilinearError
deriving DecidableEq, Repr

/-- The ordering used by line 400's `np.sort(..., order=['f0', 'f1'])`:
lexicographic by x, then y. -/
def pointLE (p q : ℚ × ℚ × ℚ) : Prop :=
  p.1 < q.1 ∨ (p.1 = q.1 ∧ p.2.1 ≤ q.2.1)

instance : DecidableRel pointLE := fun p q => by
  unfold pointLE; infer_instance

/-- Embedding of `bilinear_interpolation` (lines 383-411).  Line 400 sorts
the points into `pts`, but line 401 destructures the original, unsorted
`points`; the unused `let` mirrors that.  The trailing `+ 0.0` of the
source's denominator is the identity over the rationals. -/
def bilinear_interpolation (x y : ℚ) (points : List (ℚ × ℚ × ℚ)) :
    Except BilinearError PyFloat :=
  match points with
  | [(x1, y1, q11), (a1, y2, q12), (x2, b1, q21), (a2, b2, q22)] =>
    let _pts := List.insertionSort pointLE points
    if x1 ≠ a1 ∨ x2 ≠ a2 ∨ y1 ≠ b1 ∨ y2 ≠ b2 then
      Except.error BilinearError.notARectangle
    else if ¬(x1 ≤ x ∧ x ≤ x2) ∨ ¬(y1 ≤ y ∧ y ≤ y2) then
      Except.error BilinearError.pointOutsideRectangle
    else
      Except.ok (npDiv
        (q11 * (x2 - x) * (y2 - y) + q21 * (x - x1) * (y2 - y) +
          q12 * (x2 - x) * (y - y1) + q22 * (x - x1) * (y - y1))
        ((x2 - x1) * (y2 - y1)))
  | _ => Except.error BilinearError.notFourPoints

/-- Whether a proleptic Gregorian year is a leap year (the calendar rule
behind Python's `datetime.date`). -/
def isLeapYear (y : ℕ) : Bool :=
  (y % 4 == 0 && y % 100 != 0) || y % 400 == 0

/-- Number of days from 1900-01-01 to January 1 of the given year: the
embedding of the date subtraction on lines 345-347, whose
`.total_seconds()` is this day count times 86400. -/
def daysFrom1900 (y : ℕ) : ℕ :=
  ((List.range (y - 1900)).map
    (fun k => if isLeapYear (1900 + k) then 366 else 365)).sum

/-- The offset `(SYSTEM_EPOCH - NTP_EPOCH).total_seconds()` computed on
lines 345-347, with `SYSTEM_EPOCH` the 1970-01-01 Unix epoch. -/
def NTP_DELTA : ℚ := ((daysFrom1900 1970 * 86400 : ℕ) : ℚ)

/-- Embedding of `ntp_to_unix_time` (lines 310-350): numexpr evaluates the
elementwise subtraction `ntp_timestamp - NTP_DELTA`. -/
def ntp_to_unix_time (ntp_timestamp : ℚ) : ℚ := ntp_timestamp - NTP_DELTA

/-- Embedding of `extract_parameter` (lines 353-380), with Python's
indexing semantics for `in_array[index]`: a nonnegative index addresses
from the front, a negative index counts back from the end, and an index
outside either bound raises an IndexError. -/
def extract_parameter (in_array : List ℤ) (index : ℤ) : Except PyError ℤ :=
  let j := if index < 0 then index + in_array.length else index
  if h : 0 ≤ j ∧ j < (in_array.length : ℤ) then
    Except.ok (in_array.get ⟨j.toNat, by omega⟩)
  else Except.error PyError.indexOutOfRange

/-- Embedding of `np.radians` (line 119): degrees to radians. -/
noncomputable def radians (theta : ℝ) : ℝ := theta * (Real.pi / 180)

/-- Embedding of `magnetic_correction` (lines 119-132) for a scalar theta:
cosT and sinT are scalars, M is the 2 x 2 matrix of lines 123-126, the
velocity arrays are stacked as the 2 x n matrix [u; v] (line 130), and
`np.dot` is the matrix product; the function returns the two rows
`cor[0]` and `cor[1]`. -/
noncomputable def magnetic_correction (theta : ℝ) {n : ℕ} (u v : Fin n → ℝ) :
    (Fin n → ℝ) × (Fin n → ℝ) :=
  let cosT := Real.cos (radians theta)
  let sinT := Real.sin (radians theta)
  let M : Matrix (Fin 2) (Fin 2) ℝ :=
    Matrix.of ![![cosT, sinT], ![-1 * sinT, cosT]]
  let b : Matrix (Fin 2) (Fin n) ℝ := Matrix.of ![u, v]
  let cor := M * b
  (cor 0, cor 1)

/-- Error raised by numpy when `np.dot` shapes do not align. -/
inductive NpError where
  | shapesNotAligned : NpError
deriving DecidableEq, Repr

/-- Embedding of `magnetic_correction` (lines 119-132) when theta is an
array of length m.  cosT and sinT are then arrays, so line 123's M has
shape (2, 2, m), and line 130's `np.dot` contracts the last axis of M
(length m) against the second-to-last axis of the stacked (2, n) velocity
matrix (length 2): numpy raises a shapes-not-aligned ValueError unless
m = 2, and for m = 2 the result has shape (2, 2, n), so the returned
`cor[0]` and `cor[1]` are 2 x n matrices rather than velocity vectors. -/
noncomputable def magnetic_correction_arr (theta u v : List ℝ) :
    Except NpError (List (List ℝ) × List (List ℝ)) :=
  let cosT := theta.map (fun t => Real.cos (radians t))
  let sinT := theta.map (fun t => Real.sin (radians t))
  if theta.length = 2 then
    let c0 := cosT.getD 0 0
    let c1 := cosT.getD 1 0
    let s0 := sinT.getD 0 0
    let s1 := sinT.getD 1 0
    Except.ok
      ([List.zipWith (fun a b => c0 * a + c1 * b) u v,
        List.zipWith (fun a b => s0 * a + s1 * b) u v],
       [List.zipWith (fun a b => -1 * s0 * a + -1 * s1 * b) u v,
        List.zipWith (fun a b => c0 * a + c1 * b) u v])
  else Except.error NpError.shapesNotAligned

theorem land_zero_left (z : ℤ) : Int.land 0 z = 0 := by
  cases z <;>
    simp [Int.land, Nat.ldiff, Nat.zero_and, Nat.bitwise_zero_left]

/-- C1: the claim says a positive depth with zflag = -1 has its sign flipped
before the model call.  The code never flips: `z > 0 & zflag == -1` parses
as `(z > (0 & zflag)) and ((0 & zflag) == -1)`, whose right conjunct is
`0 == -1`, always False.  At the failing input z = 1000 m, zflag = -1 the
code hands the model +1.0 km, while the spec's DepthNormalizer (and the
function's own docstring) give -1.0 km; in fact the flip branch is dead for
every input. -/
theorem C1_depth_sign_flip_dead :
    depth_to_km (F.fin 1000) (-1) = F.fin 1 ∧
    to_model_depth_km_spec (F.fin 1000) (-1) = F.fin (-1) ∧
    ∀ (z : F) (zflag : ℤ), depth_to_km z zflag = F.div z (F.fin 1000) := by
  have dead : ∀ (z : F) (zflag : ℤ), depth_to_km z zflag = F.div z (F.fin 1000) := by
    intro z zflag
    simp [depth_to_km, depthFlagCond, land_zero_left]
  refine ⟨?_, ?_, dead⟩
  · rw [dead]
    simp [F.div]
  · simp [to_model_depth_km_spec, F.div, F.gt, F.mul]

/-- Witness for C1's universally quantified part at a concrete depth and
flag. -/
theorem C1_depth_sign_flip_dead_witness :
    depth_to_km (F.fin 5) 7 = F.div (F.fin 5) (F.fin 1000) :=
  C1_depth_sign_flip_dead.2.2 (F.fin 5) 7

theorem declModel_nan (lat lon z : F) (dates : ℤ)
    (h : lat = F.nan ∨ lon = F.nan ∨ z = F.nan) :
    declModel lat lon z dates = F.nan := by
  rcases h with h | h | h <;> subst h <;> simp [declModel, F.isNan]

/-- C2 counterexample: at the concrete batch with a NaN timestamp (and
finite latitude, longitude, depth), the evaluation raises
`InvalidTimestamp` instead of returning a NaN output element, so the claim
"the output element is NaN and no exception is raised" is false on the
code. -/
theorem C2_nan_timestamp_raises :
    magnetic_declination declModel [F.fin 45] [F.fin (-128)] [F.nan] [F.fin 0]
      (-1) = Except.error PyError.invalidTimestamp := by
  rfl

/-- C2 amended: NaN in latitude, longitude or depth at an element does
propagate to a NaN output for that element without an exception (for any
model satisfying the spec's NaN-propagation property), but a NaN timestamp
instead makes time normalization fail with `InvalidTimestamp` (spec
section 4.1), aborting the batch. -/
theorem C2_nan_propagation_amended :
    (∀ (decl : F → F → F → ℤ → F),
      (∀ (la lo zz : F) (d : ℤ),
        la = F.nan ∨ lo = F.nan ∨ zz = F.nan → decl la lo zz d = F.nan) →
      ∀ (lat lon ts z : F) (zflag : ℤ), ts ≠ F.nan →
        (lat = F.nan ∨ lon = F.nan ∨ z = F.nan) →
        wmm_declination_remod decl lat lon ts z zflag = Except.ok F.nan) ∧
    (∀ (decl : F → F → F → ℤ → F) (la lo zz : F) (zflag : ℤ)
        (lat lon ts z : List F),
      magnetic_declination decl (la :: lat) (lo :: lon) (F.nan :: ts)
        (zz :: z) zflag = Except.error PyError.invalidTimestamp) := by
  constructor
  · intro decl hdecl lat lon ts z zflag hts hnan
    match ts, hts with
    | F.fin q, _ =>
      have hz : lat = F.nan ∨ lon = F.nan ∨ depth_to_km z zflag = F.nan := by
        rcases hnan with h | h | h
        · exact Or.inl h
        · exact Or.inr (Or.inl h)
        · subst h
          exact Or.inr (Or.inr (by simp [depth_to_km, depthFlagCond, F.gt, F.div]))
      simp [wmm_declination_remod, to_calendar_date, F.sub, NTP_OFFSET,
        hdecl _ _ _ _ hz]
  · intro decl la lo zz zflag lat lon ts z
    simp [magnetic_declination, wmm_declination_remod, to_calendar_date, F.sub]

/-- Witness for C2's amended theorem at concrete inputs: a NaN latitude
with a finite timestamp yields a NaN output element, and a NaN timestamp
at the head of a batch raises `InvalidTimestamp`. -/
theorem C2_nan_propagation_amended_witness :
    wmm_declination_remod declModel F.nan (F.fin 1) (F.fin 2) (F.fin 3) (-1) =
      Except.ok F.nan ∧
    magnetic_declination declModel [F.fin 1] [F.fin 2] [F.nan] [F.fin 3] 1 =
      Except.error PyError.invalidTimestamp := by
  refine ⟨C2_nan_propagation_amended.1 declModel declModel_nan F.nan (F.fin 1)
    (F.fin 2) (F.fin 3) (-1) (by simp) (Or.inl rfl), ?_⟩
  exact C2_nan_propagation_amended.2 declModel (F.fin 1) (F.fin 2) (F.fin 3) 1
    [] [] [] []

/-- C3 counterexample: for year 1999 (resource absent under the shipped
single-epoch resources), the error that propagates to the caller is the
TypeError raised by line 147's malformed format string, not a
ModelNotFound error, so the claim "fails with a propagated ModelNotFound
error reported to the caller" is false on the code. -/
theorem C3_resolution_error_is_typeerror :
    set_wmm_model resolver2010 1999 = Except.error WmmModelError.typeError ∧
    set_wmm_model resolver2010 1999 ≠
      Except.error WmmModelError.modelNotFound := by
  have h1 : set_wmm_model resolver2010 1999 =
      Except.error WmmModelError.typeError := by rfl
  refine ⟨h1, ?_⟩
  rw [h1]
  simp

/-- C3 amended: a missing coefficient resource does make `set_wmm_model`
propagate an exception to the caller, and the function never returns the
unusable `None` after merely printing - but the exception is the TypeError
raised inside the `except` handler by line 147's two-specifier format
string applied to the single exception object, which masks the
ModelNotFound cause, rather than a typed ModelNotFound error.  Year 2010,
the shipped epoch, resolves normally. -/
theorem C3_resolution_failure_raises :
    (∀ (rf : String → Except ResolutionError String) (year : ℤ)
        (e : ResolutionError), rf (cof_file year) = Except.error e →
        set_wmm_model rf year = Except.error WmmModelError.typeError) ∧
    (∀ (rf : String → Except ResolutionError String) (year : ℤ),
        set_wmm_model rf year ≠ Except.ok none) ∧
    set_wmm_model resolver2010 2010 = Except.ok (some "WMM2010.COF") := by
  refine ⟨?_, ?_, by rfl⟩
  · intro rf year e h
    simp [set_wmm_model, h, pyFormatSingle, fmtSpecifiers]
  · intro rf year h
    rcases hrf : rf (cof_file year) with e | p <;>
      simp [set_wmm_model, hrf, pyFormatSingle, fmtSpecifiers] at h

/-- Witness for C3's amended theorem: the failing lookup for year 1985
propagates the TypeError (and in particular does not return `None`). -/
theorem C3_resolution_failure_raises_witness :
    set_wmm_model resolver2010 1985 = Except.error WmmModelError.typeError ∧
    set_wmm_model resolver2010 1985 ≠ Except.ok none :=
  ⟨C3_resolution_failure_raises.1 resolver2010 1985 ResolutionError.notFound
    (by rfl),
   C3_resolution_failure_raises.2.1 resolver2010 1985⟩

/-- C4: the claim (and the function's own docstring example) says the four
rectangle corners may be presented in any order and that
`bilinear_interpolation(12, 5.5, [(10,4,100),(20,4,200),(10,6,150),(20,6,300)])`
returns 165.0.  The code sorts the points into `pts` but then destructures
the unsorted `points`, so the docstring's own ordering hits the rectangle
check and raises, while the sorted ordering of the same four corners
returns 165. -/
theorem C4_bilinear_input_order :
    bilinear_interpolation 12 (11 / 2)
      [(10, 4, 100), (20, 4, 200), (10, 6, 150), (20, 6, 300)] =
      Except.error BilinearError.notARectangle ∧
    bilinear_interpolation 12 (11 / 2)
      [(10, 4, 100), (10, 6, 150), (20, 4, 200), (20, 6, 300)] =
      Except.ok (PyFloat.num 165) := by
  constructor
  · simp [bilinear_interpolation]
  · simp [bilinear_interpolation]
    norm_num [npDiv]

/-- C5 counterexample: the degenerate (zero-width) rectangle below passes
the rectangle check, and the code returns NaN from the 0/0 division
instead of failing with a DegenerateRectangle error, so the claim is false
on the code. -/
theorem C5_degenerate_returns_nan :
    bilinear_interpolation 10 5
      [(10, 4, 100), (10, 6, 150), (10, 4, 200), (10, 6, 300)] =
      Except.ok PyFloat.nan := by
  simp [bilinear_interpolation]
  norm_num [npDiv]

/-- C5 amended: the code has no DegenerateRectangle check.  For every
four-corner sample set in corner order that passes the rectangle check,
with the query point inside the (degenerate) rectangle and a zero total
area, the function silently returns NaN: every numerator term also
vanishes, and numpy's 0/0 is NaN. -/
theorem C5_degenerate_amended (x y x1 y1 x2 y2 q11 q12 q21 q22 : ℚ)
    (hx1 : x1 ≤ x) (hx2 : x ≤ x2) (hy1 : y1 ≤ y) (hy2 : y ≤ y2)
    (hdeg : (x2 - x1) * (y2 - y1) = 0) :
    bilinear_interpolation x y
      [(x1, y1, q11), (x1, y2, q12), (x2, y1, q21), (x2, y2, q22)] =
      Except.ok PyFloat.nan := by
  have hbounds : ¬(¬(x1 ≤ x ∧ x ≤ x2) ∨ ¬(y1 ≤ y ∧ y ≤ y2)) := by
    push_neg
    exact ⟨⟨hx1, hx2⟩, hy1, hy2⟩
  have hnum : q11 * (x2 - x) * (y2 - y) + q21 * (x - x1) * (y2 - y) +
      q12 * (x2 - x) * (y - y1) + q22 * (x - x1) * (y - y1) = 0 := by
    rcases mul_eq_zero.mp hdeg with h | h
    · have hxx1 : x = x1 := le_antisymm (by linarith) hx1
      have hxx2 : x = x2 := by linarith
      rw [← hxx1, ← hxx2]
      ring
    · have hyy1 : y = y1 := le_antisymm (by linarith) hy1
      have hyy2 : y = y2 := by linarith
      rw [← hyy1, ← hyy2]
      ring
  simp only [bilinear_interpolation]
  rw [if_neg (by simp), if_neg hbounds, hnum, hdeg]
  simp [npDiv]

/-- Witness for C5's amended theorem: a concrete zero-height rectangle
passing the rectangle check returns NaN. -/
theorem C5_degenerate_amended_witness :
    bilinear_interpolation 12 4
      [(10, 4, 100), (10, 4, 150), (20, 4, 200), (20, 4, 300)] =
      Except.ok PyFloat.nan :=
  C5_degenerate_amended 12 4 10 4 20 4 100 150 200 300 (by norm_num)
    (by norm_num) (by norm_num) (by norm_num) (by norm_num)

/-- C8: the computed epoch delta is exactly the constant 2208988800 (the
seconds between 1900-01-01 and 1970-01-01, 25567 days), so
`ntp_to_unix_time` subtracts exactly that constant from every timestamp,
and the documented example 3574792037.958 maps to 1365803237.958 within
1e-6 (here: exactly). -/
theorem C8_ntp_to_unix_time_offset :
    (∀ t : ℚ, ntp_to_unix_time t = t - 2208988800) ∧
    |ntp_to_unix_time (3574792037958 / 1000) - 1365803237958 / 1000| ≤
      1 / 1000000 := by
  have hdays : daysFrom1900 1970 = 25567 := by decide
  have hd : NTP_DELTA = 2208988800 := by
    rw [NTP_DELTA, hdays]
    norm_num
  constructor
  · intro t
    rw [ntp_to_unix_time, hd]
  · rw [ntp_to_unix_time, hd]
    norm_num

/-- Witness for C8's universally quantified part at a concrete timestamp. -/
theorem C8_ntp_to_unix_time_offset_witness :
    ntp_to_unix_time 3471292800 = 3471292800 - 2208988800 :=
  C8_ntp_to_unix_time_offset.1 3471292800

theorem extract_parameter_nonneg (a : List ℤ) (i : ℤ) (h0 : 0 ≤ i)
    (hlen : i < (a.length : ℤ)) :
    extract_parameter a i = Except.ok (a.getD i.toNat 0) := by
  have hj : ¬i < 0 := by omega
  have hget : a.getD i.toNat 0 = a.get ⟨i.toNat, by omega⟩ :=
    List.getD_eq_get a 0 (by omega)
  simp only [extract_parameter, hj, if_false]
  rw [dif_pos ⟨h0, hlen⟩, hget]

/-- C9: within bounds, `extract_parameter` returns the element at the
0-based index, and an index at or past the length fails with an
index-out-of-range error; in particular index 3 of the documented
eight-element array yields 15 and index 8 fails. -/
theorem C9_extract_parameter_bounds :
    (∀ (a : List ℤ) (i : ℤ),
      (0 ≤ i → i < (a.length : ℤ) →
        extract_parameter a i = Except.ok (a.getD i.toNat 0)) ∧
      ((a.length : ℤ) ≤ i →
        extract_parameter a i = Except.error PyError.indexOutOfRange)) ∧
    extract_parameter [34, 67, 12, 15, 89, 100, 54, 36] 3 = Except.ok 15 ∧
    extract_parameter [34, 67, 12, 15, 89, 100, 54, 36] 8 =
      Except.error PyError.indexOutOfRange := by
  have main : ∀ (a : List ℤ) (i : ℤ),
      (0 ≤ i → i < (a.length : ℤ) →
        extract_parameter a i = Except.ok (a.getD i.toNat 0)) ∧
      ((a.length : ℤ) ≤ i →
        extract_parameter a i = Except.error PyError.indexOutOfRange) := by
    intro a i
    refine ⟨extract_parameter_nonneg a i, fun hge => ?_⟩
    have hj : ¬i < 0 := by
      have : (0 : ℤ) ≤ (a.length : ℤ) := Int.ofNat_nonneg a.length
      omega
    simp only [extract_parameter, hj, if_false]
    rw [dif_neg (by omega)]
  refine ⟨main, ?_, (main [34, 67, 12, 15, 89, 100, 54, 36] 8).2 (by norm_num)⟩
  have h := (main [34, 67, 12, 15, 89, 100, 54, 36] 3).1 (by norm_num)
    (by norm_num)
  simpa using h

/-- Witness for C9's universally quantified part at the documented array:
index 3 returns the element 15 and index 8 (the length) fails. -/
theorem C9_extract_parameter_bounds_witness :
    extract_parameter [34, 67, 12, 15, 89, 100, 54, 36] 3 = Except.ok 15 ∧
    extract_parameter [34, 67, 12, 15, 89, 100, 54, 36] 8 =
      Except.error PyError.indexOutOfRange := by
  constructor
  · have h := (C9_extract_parameter_bounds.1
      [34, 67, 12, 15, 89, 100, 54, 36] 3).1 (by norm_num) (by norm_num)
    simpa using h
  · exact (C9_extract_parameter_bounds.1
      [34, 67, 12, 15, 89, 100, 54, 36] 8).2 (by norm_num)

/-- C10: a negative index i with -length <= i < 0 is silently accepted:
Python's indexing returns the element at position length + i, so the code
never rejects such an index. -/
theorem C10_extract_parameter_negative_index (a : List ℤ) (i : ℤ)
    (h1 : -(a.length : ℤ) ≤ i) (h2 : i < 0) :
    extract_parameter a i = Except.ok (a.getD (i + a.length).toNat 0) := by
  have hget : a.getD (i + a.length).toNat 0 =
      a.get ⟨(i + a.length).toNat, by omega⟩ :=
    List.getD_eq_get a 0 (by omega)
  simp only [extract_parameter, h2, if_true]
  rw [dif_pos ⟨by omega, by omega⟩, hget]

/-- Witness for C10: index -1 of the documented eight-element array
returns its last element, 36. -/
theorem C10_extract_parameter_negative_index_witness :
    extract_parameter [34, 67, 12, 15, 89, 100, 54, 36] (-1) =
      Except.ok 36 := by
  have h := C10_extract_parameter_negative_index
    [34, 67, 12, 15, 89, 100, 54, 36] (-1) (by norm_num) (by norm_num)
  simpa using h

theorem magnetic_correction_apply (theta : ℝ) {n : ℕ} (u v : Fin n → ℝ)
    (k : Fin n) :
    (magnetic_correction theta u v).1 k =
      Real.cos (radians theta) * u k + Real.sin (radians theta) * v k ∧
    (magnetic_correction theta u v).2 k =
      -1 * Real.sin (radians theta) * u k + Real.cos (radians theta) * v k := by
  constructor <;>
    simp [magnetic_correction, Matrix.mul_apply, Fin.sum_univ_two]

/-- C6 counterexample: with the per-element theta array [45, 60, 30]
aligned with three-element velocity arrays, the code's `np.dot` shapes do
not align and the call raises, rather than returning the per-element
rotation the claim states. -/
theorem C6_array_theta_fails :
    magnetic_correction_arr [45, 60, 30] [1, 2, 3] [4, 5, 6] =
      Except.error NpError.shapesNotAligned := by
  simp [magnetic_correction_arr]

/-- C6 amended: for a scalar theta the rotation formula of the claim holds
at every index (east' = east cos + north sin, north' = -east sin +
north cos, theta converted from degrees to radians); for an array theta
the code does not apply a per-element rotation: unless the theta array has
length exactly 2, `np.dot` raises a shape-alignment error. -/
theorem C6_magnetic_correction_amended :
    (∀ (theta : ℝ) {n : ℕ} (u v : Fin n → ℝ) (k : Fin n),
      (magnetic_correction theta u v).1 k =
        u k * Real.cos (radians theta) + v k * Real.sin (radians theta) ∧
      (magnetic_correction theta u v).2 k =
        -(u k) * Real.sin (radians theta) + v k * Real.cos (radians theta)) ∧
    (∀ (theta u v : List ℝ), theta.length ≠ 2 →
      magnetic_correction_arr theta u v = Except.error NpError.shapesNotAligned) := by
  constructor
  · intro theta n u v k
    refine ⟨?_, ?_⟩
    · rw [(magnetic_correction_apply theta u v k).1]
      ring
    · rw [(magnetic_correction_apply theta u v k).2]
      ring
  · intro theta u v h
    simp [magnetic_correction_arr, h]

/-- Witness for C6's amended theorem: a length-one theta array raises the
shape-alignment error, and the scalar formula holds at a concrete index of
a concrete pair. -/
theorem C6_magnetic_correction_amended_witness :
    magnetic_correction_arr [30] [1] [2] = Except.error NpError.shapesNotAligned ∧
    (magnetic_correction (30 : ℝ) ![1, 2] ![3, 4]).1 0 =
      1 * Real.cos (radians 30) + 3 * Real.sin (radians 30) := by
  refine ⟨C6_magnetic_correction_amended.2 [30] [1] [2] (by norm_num), ?_⟩
  have h := (C6_magnetic_correction_amended.1 (30 : ℝ)
    (![1, 2] : Fin 2 → ℝ) ![3, 4] 0).1
  simpa using h

/-- C7: the rotation of `magnetic_correction` is orthogonal: applying it
with angle theta and then with -theta recovers the original velocity
pair exactly over the real-number embedding. -/
theorem C7_magnetic_correction_orthogonal (theta : ℝ) {n : ℕ}
    (u v : Fin n → ℝ) :
    magnetic_correction (-theta) (magnetic_correction theta u v).1
      (magnetic_correction theta u v).2 = (u, v) := by
  have hrad : radians (-theta) = -(radians theta) := by
    rw [radians, radians]
    ring
  have pyth := Real.sin_sq_add_cos_sq (radians theta)
  refine Prod.ext ?_ ?_
  · funext k
    rw [(magnetic_correction_apply (-theta) _ _ k).1,
      (magnetic_correction_apply theta u v k).1,
      (magnetic_correction_apply theta u v k).2, hrad, Real.cos_neg,
      Real.sin_neg]
    linear_combination u k * pyth
  · funext k
    rw [(magnetic_correction_apply (-theta) _ _ k).2,
      (magnetic_correction_apply theta u v k).1,
      (magnetic_correction_apply theta u v k).2, hrad, Real.cos_neg,
      Real.sin_neg]
    linear_combination v k * pyth

/-- Witness for C7 at a concrete angle and pair. -/
theorem C7_magnetic_correction_orthogonal_witness :
    magnetic_correction (-45 : ℝ)
      (magnetic_correction 45 (![1] : Fin 1 → ℝ) ![2]).1
      (magnetic_correction 45 (![1] : Fin 1 → ℝ) ![2]).2 = (![1], ![2]) :=
  C7_magnetic_correction_orthogonal 45 ![1] ![2]

end GenericFunctions
